import Mathlib

/-!
# CoroRingServer: the buffer ring, the completion iterator, the worker loop and sync_wait

A shallow embedding of `src/buffer_ring.cpp`, `src/io_uring.cpp`,
`src/http_server.cpp` and `include/sync_wait.hpp`.

Conventions.
* C++ objects become structures and member functions become functions that
  take the object and give back the new object.
* Machine integers are `Nat` or `Int` reduced explicitly: `% 65536` for the
  16-bit ring tail and buffer id, `% 4294967296` for `unsigned int`,
  `% 18446744073709551616` for `size_t`.
* A thrown `std::runtime_error`, a thrown `std::filesystem::filesystem_error`
  and an access outside a `std::vector` are the constructors of `fault`;
  functions that can do any of these return `Except fault`.
* What the kernel, the HTTP parser, the file system and the coroutine being
  resumed do is not code of these files; it enters as function arguments or
  as scripted answers.
-/

namespace co_uring_http

/-! ## Faults -/

/-- The ways a member function can fail to return normally. -/
inductive fault where
  /-- A `throw std::runtime_error(what)`. -/
  | runtime_error (what : String)
  /-- A `std::filesystem::filesystem_error` thrown by a file-system query. -/
  | filesystem_error (what : String)
  /-- An `operator[]` outside the bounds of a `std::vector` or `std::span`. -/
  | out_of_bounds
  deriving DecidableEq, Repr

/-! ## liburing provided-buffer ring (`liburing.h` inline helpers) -/

/-- One entry of the kernel-shared buffer ring (`struct io_uring_buf`):
`__u64 addr`, `__u32 len`, `__u16 bid`. -/
structure io_uring_buf where
  addr : Nat
  len : Nat
  bid : Nat
  deriving DecidableEq, Repr

/-- The kernel-shared ring (`struct io_uring_buf_ring`): its entries and the
16-bit tail that the application publishes. -/
structure io_uring_buf_ring where
  bufs : List io_uring_buf
  tail : Nat
  deriving DecidableEq, Repr

/-- The function `io_uring_buf_ring_mask(ring_entries)`: `ring_entries - 1`,
stored by the callers in an `unsigned int`. -/
def io_uring_buf_ring_mask (ring_entries : Nat) : Nat :=
  (ring_entries + 4294967295) % 4294967296

/-- The function `io_uring_buf_ring_add(br, addr, len, bid, mask, buf_offset)`:
writes the entry at index `(br->tail + buf_offset) & mask`; `len` is an
`unsigned int` parameter and `bid` an `unsigned short` one, so the values
passed are reduced to 32 and 16 bits; `addr` is a pointer and is stored as
it is. The tail is not moved. -/
def io_uring_buf_ring_add (br : io_uring_buf_ring) (addr len bid mask buf_offset : Nat) :
    io_uring_buf_ring :=
  { br with bufs := br.bufs.set ((br.tail + buf_offset) &&& mask)
                      { addr := addr, len := len % 4294967296, bid := bid % 65536 } }

/-- The function `io_uring_buf_ring_advance(br, count)`: publishes `count`
more entries by storing `(unsigned short)(br->tail + count)`. -/
def io_uring_buf_ring_advance (br : io_uring_buf_ring) (count : Nat) : io_uring_buf_ring :=
  { br with tail := (br.tail + count) % 65536 }

/-- The function `io_uring_buf_ring_init(br)`: `br->tail = 0`. -/
def io_uring_buf_ring_init (br : io_uring_buf_ring) : io_uring_buf_ring :=
  { br with tail := 0 }

/-! ## `io_uring::setup_buffer_ring` and `io_uring::add_buffer` -/

/-- A `std::vector<char>`: the address `data()` gives and the bytes held. -/
structure char_vector where
  data : Nat
  bytes : List Nat
  deriving DecidableEq, Repr

/-- The loop of `setup_buffer_ring` from `buffer_id` on, with `fuel` bounding
the iterations that remain (`buffer_ring_size - buffer_id` of them run). -/
def setup_buffer_ring_loop (buffer_list : List char_vector) (buffer_ring_size mask : Nat) :
    Nat → Nat → io_uring_buf_ring → Except fault io_uring_buf_ring
  | 0, _, br => .ok br
  | fuel + 1, buffer_id, br =>
    if buffer_id < buffer_ring_size then
      match buffer_list.get? buffer_id with
      | none => .error fault.out_of_bounds
      | some buffer =>
        setup_buffer_ring_loop buffer_list buffer_ring_size mask fuel (buffer_id + 1)
          (io_uring_buf_ring_add br buffer.data buffer.bytes.length buffer_id mask buffer_id)
    else .ok br

/-- The member `io_uring::setup_buffer_ring(buffer_ring, buffer_list, buffer_ring_size)`.
`io_uring_register_buf_ring entries` is what the kernel answers to the
registration of a ring of `entries` entries (0 when it accepts). -/
def setup_buffer_ring (io_uring_register_buf_ring : Nat → Int) (br : io_uring_buf_ring)
    (buffer_list : List char_vector) (buffer_ring_size : Nat) :
    Except fault io_uring_buf_ring :=
  if io_uring_register_buf_ring buffer_ring_size ≠ 0 then
    .error (fault.runtime_error "failed to invoke 'io_uring_register_buf_ring'")
  else
    let br0 := io_uring_buf_ring_init br
    let mask := io_uring_buf_ring_mask buffer_ring_size
    match setup_buffer_ring_loop buffer_list buffer_ring_size mask buffer_ring_size 0 br0 with
    | .error e => .error e
    | .ok br1 => .ok (io_uring_buf_ring_advance br1 buffer_ring_size)

/-- The member `io_uring::add_buffer(buffer_ring, buffer, buffer_id, buffer_ring_size)`:
one `io_uring_buf_ring_add` with `buf_offset = buffer_id`, then an advance
by one. -/
def add_buffer (br : io_uring_buf_ring) (buffer : char_vector) (buffer_id buffer_ring_size : Nat) :
    io_uring_buf_ring :=
  let mask := io_uring_buf_ring_mask buffer_ring_size
  io_uring_buf_ring_advance
    (io_uring_buf_ring_add br buffer.data buffer.bytes.length buffer_id mask buffer_id) 1

/-! ## `buffer_ring` -/

/-- The class `buffer_ring`: the kernel-shared ring, the buffers and the
borrow set. -/
structure buffer_ring where
  buffer_ring_ : io_uring_buf_ring
  buffer_list_ : List char_vector
  borrowed_buffer_set_ : Nat → Bool

/-- A default-constructed `buffer_ring`: no ring memory, no buffers, an
all-zero bitset. -/
def buffer_ring.fresh : buffer_ring :=
  { buffer_ring_ := { bufs := [], tail := 0 },
    buffer_list_ := [],
    borrowed_buffer_set_ := fun _ => false }

/-- A `std::span<char>`: where it starts and how many bytes it covers. -/
structure char_span where
  data : Nat
  size : Nat
  deriving DecidableEq, Repr

/-- The `emplace_back` loop of `register_buffer_ring`: `count` more vectors
of `buffer_size` zero bytes; `alloc k` is the address the allocator gives to
the vector placed at index `k`. -/
def emplace_buffers (alloc : Nat → Nat) (buffer_size : Nat) :
    Nat → List char_vector → List char_vector
  | 0, buffer_list => buffer_list
  | count + 1, buffer_list =>
    emplace_buffers alloc buffer_size count
      (buffer_list ++ [{ data := alloc buffer_list.length,
                         bytes := List.replicate buffer_size 0 }])

/-- The member `buffer_ring::register_buffer_ring(buffer_ring_size, buffer_size)`.
`memory k` is what `posix_memalign` left in ring slot `k`, `tail0` what it
left in the tail field. `buffer_list_.size()` reaches `setup_buffer_ring`
converted to `unsigned int`. -/
def register_buffer_ring (io_uring_register_buf_ring : Nat → Int) (alloc : Nat → Nat)
    (memory : Nat → io_uring_buf) (tail0 : Nat)
    (self : buffer_ring) (buffer_ring_size buffer_size : Nat) : Except fault buffer_ring :=
  let ring : io_uring_buf_ring :=
    { bufs := (List.range buffer_ring_size).map memory, tail := tail0 }
  let buffer_list := emplace_buffers alloc buffer_size buffer_ring_size self.buffer_list_
  match setup_buffer_ring io_uring_register_buf_ring ring buffer_list
      (buffer_list.length % 4294967296) with
  | .error e => .error e
  | .ok ring1 =>
    .ok { buffer_ring_ := ring1, buffer_list_ := buffer_list,
          borrowed_buffer_set_ := self.borrowed_buffer_set_ }

/-- The member `buffer_ring::borrow_buffer(buffer_id, size)`. -/
def borrow_buffer (self : buffer_ring) (buffer_id size : Nat) :
    Except fault (buffer_ring × char_span) :=
  let self1 := { self with
    borrowed_buffer_set_ := Function.update self.borrowed_buffer_set_ buffer_id true }
  match self1.buffer_list_.get? buffer_id with
  | none => .error fault.out_of_bounds
  | some buffer => .ok (self1, { data := buffer.data, size := size })

/-- The member `buffer_ring::return_buffer(buffer_id)`. `buffer_list_.size()`
reaches `add_buffer` converted to `unsigned int`. -/
def return_buffer (self : buffer_ring) (buffer_id : Nat) : Except fault buffer_ring :=
  let self1 := { self with
    borrowed_buffer_set_ := Function.update self.borrowed_buffer_set_ buffer_id false }
  match self1.buffer_list_.get? buffer_id with
  | none => .error fault.out_of_bounds
  | some buffer =>
    .ok { self1 with
      buffer_ring_ := add_buffer self1.buffer_ring_ buffer buffer_id
        (self1.buffer_list_.length % 4294967296) }

/-! ## The kernel side of the buffer ring

The kernel consumes the ring from its own 16-bit head: the entries from the
head up to the published tail are the buffers on offer, and a receive with
buffer select takes the entry at the head. -/

/-- The ids on offer: the `bid` of the entries at `head, head+1, ..., tail-1`
(16-bit counters), each read at `index & mask`. -/
def offered_ids (br : io_uring_buf_ring) (ring_entries head : Nat) : List Nat :=
  (List.range ((br.tail + 65536 - head % 65536) % 65536)).map fun k =>
    match br.bufs.get? (((head + k) % 65536) &&& io_uring_buf_ring_mask ring_entries) with
    | some entry => entry.bid
    | none => 0

/-- The kernel selects a buffer: none when the ring is empty, else the id of
the entry at the head and the head moved on by one. -/
def kernel_select (br : io_uring_buf_ring) (ring_entries head : Nat) : Option (Nat × Nat) :=
  if head % 65536 = br.tail then none
  else
    match br.bufs.get? ((head % 65536) &&& io_uring_buf_ring_mask ring_entries) with
    | some entry => some (entry.bid, (head + 1) % 65536)
    | none => none

/-! ## The completion queue and `io_uring::cqe_iterator` -/

/-- A completion record (`struct io_uring_cqe`); `user_data` is the
descriptor pointer the submission carried. -/
structure io_uring_cqe where
  user_data : Nat
  res : Int
  flags : Nat
  deriving DecidableEq, Repr

/-- The completion side of `struct io_uring`: the 32-bit head and tail
counters, the ring mask and the entry array (`cqes k` is `cq.cqes[k]`). -/
structure io_uring_cq where
  khead : Nat
  ktail : Nat
  ring_mask : Nat
  cqes : Nat → io_uring_cqe

/-- The class `io_uring::cqe_iterator`: its `unsigned int head_` (the ring
pointer it also holds never changes). -/
structure cqe_iterator where
  head_ : Nat
  deriving DecidableEq, Repr

/-- The member `cqe_iterator::operator++`: `++head_` on an `unsigned int`. -/
def cqe_iterator.incr (self : cqe_iterator) : cqe_iterator :=
  { head_ := (self.head_ + 1) % 4294967296 }

/-- The member `cqe_iterator::operator*`: the address of
`cq.cqes[io_uring_cqe_index(ring, head_, ring_mask)]`, given as the index
`head_ & ring_mask` (the ring is set up with flags 0, so the cqe shift is 0). -/
def cqe_iterator.deref (cq : io_uring_cq) (self : cqe_iterator) : Nat :=
  self.head_ &&& cq.ring_mask

/-- The member `cqe_iterator::operator!=`. -/
def cqe_iterator.ne (self other : cqe_iterator) : Bool :=
  self.head_ != other.head_

/-- The member `io_uring::begin()`: an iterator at `*cq.khead`. -/
def io_uring_begin (cq : io_uring_cq) : cqe_iterator :=
  { head_ := cq.khead }

/-- The member `io_uring::end()`: an iterator at the acquired `*cq.ktail`. -/
def io_uring_end (cq : io_uring_cq) : cqe_iterator :=
  { head_ := cq.ktail }

/-- A range-based `for (io_uring_cqe *cqe : io_uring)` from `it` to `last`:
while `it != last`, run `body` on `*it`, then `++it`. `fuel` bounds the
number of iterations; `none` means the bound was reached with `it != last`. -/
def range_for {σ : Type} (cq : io_uring_cq) (body : Nat → σ → σ) :
    Nat → cqe_iterator → cqe_iterator → σ → Option σ
  | 0, it, last, s => if it.ne last then none else some s
  | fuel + 1, it, last, s =>
    if it.ne last then range_for cq body fuel it.incr last (body (it.deref cq) s)
    else some s

/-- The pointers a full iteration from `begin()` to `end()` yields, in order. -/
def iter_completions (fuel : Nat) (cq : io_uring_cq) : Option (List Nat) :=
  range_for cq (fun cqe yielded => yielded ++ [cqe]) fuel (io_uring_begin cq) (io_uring_end cq) []

/-! ## `thread_worker::event_loop` -/

/-- The descriptor a submission points at (`struct sqe_data`); `coroutine`
is the address of the continuation, 0 for `nullptr`. -/
structure sqe_data where
  cqe_res : Int
  cqe_flags : Nat
  coroutine : Nat
  deriving DecidableEq, Repr

/-- What was seen at one `resume()`: the coroutine resumed, the pointer of
the completion being dispatched, the descriptor as it stood, and the
completion-queue head as it stood. -/
structure resumption where
  coroutine : Nat
  cqe : Nat
  descriptor : sqe_data
  khead : Nat
  deriving DecidableEq, Repr

/-- The state one pass of the loop works on: the completion-queue head, the
descriptors by address, and the resumptions made so far. -/
structure dispatch_state where
  khead : Nat
  descriptors : Nat → sqe_data
  resumed : List resumption

/-- The body of the `for` loop of `event_loop` for the completion at pointer
`cqe`. `resume c d` is what running coroutine `c` up to its next suspension
does to the descriptors `d`. -/
def event_loop_body (resume : Nat → (Nat → sqe_data) → (Nat → sqe_data)) (cq : io_uring_cq)
    (cqe : Nat) (s : dispatch_state) : dispatch_state :=
  let sqe_data_ptr := (cq.cqes cqe).user_data
  let d1 := Function.update s.descriptors sqe_data_ptr
    { s.descriptors sqe_data_ptr with cqe_res := (cq.cqes cqe).res }
  let d2 := Function.update d1 sqe_data_ptr
    { d1 sqe_data_ptr with cqe_flags := (cq.cqes cqe).flags }
  let coroutine_address := (d2 sqe_data_ptr).coroutine
  let khead1 := (s.khead + 1) % 4294967296
  if coroutine_address ≠ 0 then
    { khead := khead1,
      descriptors := resume coroutine_address d2,
      resumed := s.resumed ++ [{ coroutine := coroutine_address, cqe := cqe,
                                 descriptor := d2 sqe_data_ptr, khead := khead1 }] }
  else
    { khead := khead1, descriptors := d2, resumed := s.resumed }

/-- One pass of the `while (true)` of `event_loop`, after `submit_and_wait(1)`
has returned: the `for` loop over the completion queue. -/
def event_loop_pass (resume : Nat → (Nat → sqe_data) → (Nat → sqe_data)) (fuel : Nat)
    (cq : io_uring_cq) (descriptors : Nat → sqe_data) : Option dispatch_state :=
  range_for cq (event_loop_body resume cq) fuel (io_uring_begin cq) (io_uring_end cq)
    { khead := cq.khead, descriptors := descriptors, resumed := [] }

/-! ## The batch one pass reads, as the specification words it -/

/-- The number of completions between head and tail, `(t - h) mod 2^32`. -/
def cq_ready (cq : io_uring_cq) : Nat :=
  (cq.ktail + 4294967296 - cq.khead) % 4294967296

/-- The pointer of the `k`-th completion of the batch: the entry at index
`((h + k) mod 2^32) & ring_mask`. -/
def cq_pointer (cq : io_uring_cq) (k : Nat) : Nat :=
  ((cq.khead + k) % 4294967296) &&& cq.ring_mask

/-- The batch: the pointers of completions `0, 1, ..., cq_ready - 1`. -/
def cq_batch (cq : io_uring_cq) : List Nat :=
  (List.range (cq_ready cq)).map (cq_pointer cq)

/-- The state after the loop body has run on the first `i` completions of the
batch, in order. -/
def dispatched (resume : Nat → (Nat → sqe_data) → (Nat → sqe_data)) (cq : io_uring_cq)
    (descriptors : Nat → sqe_data) (i : Nat) : dispatch_state :=
  ((cq_batch cq).take i).foldl (fun s cqe => event_loop_body resume cq cqe s)
    { khead := cq.khead, descriptors := descriptors, resumed := [] }

/-- A sample completion queue: head 0, tail 3, four entries. Completions 0
and 2 carry the descriptor at address 10 (as a multishot accept does),
completion 1 the descriptor at address 11. -/
def sample_cq : io_uring_cq :=
  { khead := 0, ktail := 3, ring_mask := 3,
    cqes := fun k =>
      if k = 0 then { user_data := 10, res := 5, flags := 1 }
      else if k = 1 then { user_data := 11, res := 6, flags := 0 }
      else if k = 2 then { user_data := 10, res := 7, flags := 1 }
      else { user_data := 0, res := 0, flags := 0 } }

/-- Sample descriptors: the one at address 10 holds the continuation 77, all
others hold a null continuation. -/
def sample_descriptors : Nat → sqe_data :=
  fun p => if p = 10 then { cqe_res := 0, cqe_flags := 0, coroutine := 77 }
           else { cqe_res := 0, cqe_flags := 0, coroutine := 0 }

/-- A sample effect of resuming: coroutine 77, when it runs, installs the
continuation 78 in the descriptor at address 11; other coroutines leave the
descriptors as they are. -/
def sample_resume (coroutine : Nat) (descriptors : Nat → sqe_data) : Nat → sqe_data :=
  if coroutine = 77 then
    Function.update descriptors 11 { descriptors 11 with coroutine := 78 }
  else descriptors

/-! ## `thread_worker::handle_client` -/

/-- The request the parser hands back (`http_request`); the handler reads
its `url` and `version`. -/
structure http_request where
  method : String
  url : String
  version : String
  header_list : List (String × String)
  deriving DecidableEq, Repr

/-- The response the handler fills in (`http_response`). -/
structure http_response where
  version : String
  status : String
  status_text : String
  header_list : List (String × String)
  deriving DecidableEq, Repr

/-- Modelled from the spec: `constant.hpp` is not among the sources; the
spec gives buffers of 1024 bytes, and `recv` is asked for `BUFFER_SIZE`. -/
def BUFFER_SIZE : Nat := 1024

/-- What the file system answers to the handler. The three `std::filesystem`
queries are the overloads without `error_code`: each returns its value or
throws `filesystem_error` (a stat error other than not-found for the first
two). `fs_open` is the function `open(file_path)`, whose code is not among
the sources: it returns a descriptor or throws. -/
structure filesystem where
  fs_exists : String → Except fault Bool
  is_regular_file : String → Except fault Bool
  file_size : String → Except fault Nat
  fs_open : String → Except fault Nat

/-- What the world answers during one iteration of the handler loop: the pair
the `recv` resumes with, what `parse_packet` yields on that buffer, and what
a `send` and a `splice` resume with if the iteration submits them. -/
structure recv_round where
  recv_buffer_id : Nat
  recv_buffer_size : Int
  parse_result : Option http_request
  send_result : Int
  splice_result : Int
  deriving DecidableEq, Repr

/-- What the handler does that is visible outside it, in program order. -/
inductive action where
  /-- The statement `co_await client_socket.recv(length)` is submitted. -/
  | recv (length : Nat)
  | borrow_buffer (buffer_id size : Nat)
  | parse_packet (recv_buffer : char_span)
  /-- The statement `co_await client_socket.send(send_buffer, length)` is submitted. -/
  | send (send_buffer : String) (length : Nat)
  | open_file (file_path : String)
  /-- The statement `co_await splice(file_descriptor, client_socket, length)` is submitted. -/
  | splice (file_path : String) (length : Nat)
  | return_buffer (buffer_id : Nat)
  deriving DecidableEq, Repr

/-- How one pass through the loop body ends. -/
inductive loop_exit where
  /-- The end of the body is reached; the loop goes round again. -/
  | next
  /-- The `break` after a zero-byte `recv`. -/
  | break_loop
  /-- An exception leaves the coroutine body, or a vector is indexed out of bounds. -/
  | stopped (e : fault)
  deriving DecidableEq, Repr

/-- One pass through the loop body: what it did, the buffer ring after it,
and how it ended. -/
structure iteration where
  trace : List action
  ring : buffer_ring
  exit : loop_exit

/-- How a run of the handler over a finite script ends. -/
inductive run_status where
  /-- The loop was left by `break` and the coroutine finished. -/
  | returned
  | stopped (e : fault)
  /-- The script is used up: the coroutine is suspended in a `recv`. -/
  | awaiting_recv
  deriving DecidableEq, Repr

/-- A run of the handler: all it did, the buffer ring at the end, and how it
ended. -/
structure run where
  trace : List action
  ring : buffer_ring
  status : run_status

/-- The condition `std::filesystem::exists(file_path) &&
std::filesystem::is_regular_file(file_path)`: the second query is made only
when the first returns true, and an exception of either leaves the
condition. -/
def is_existing_regular_file (fs : filesystem) (file_path : String) : Except fault Bool :=
  match fs.fs_exists file_path with
  | .error e => .error e
  | .ok false => .ok false
  | .ok true => fs.is_regular_file file_path

/-- The `if (parse_result.has_value())` block of `handle_client`: the actions
it performs and the exception that leaves it, if any. -/
def respond (serialize : http_response → String) (fs : filesystem) (r : recv_round)
    (http_request : http_request) : List action × Option fault :=
  let file_path := http_request.url
  let response0 : http_response :=
    { version := http_request.version, status := "", status_text := "", header_list := [] }
  match is_existing_regular_file fs file_path with
  | .error e => ([], some e)
  | .ok true =>
    match fs.file_size file_path with
    | .error e => ([], some e)
    | .ok file_size =>
      let response : http_response :=
        { response0 with
          status := "200", status_text := "OK",
          header_list := response0.header_list ++ [("content-length", toString file_size)] }
      let send_buffer := serialize response
      if r.send_result = -1 then
        ([action.send send_buffer send_buffer.utf8ByteSize],
          some (fault.runtime_error "failed to invoke 'send'"))
      else
        match fs.fs_open file_path with
        | .error e =>
          ([action.send send_buffer send_buffer.utf8ByteSize, action.open_file file_path],
            some e)
        | .ok _ =>
          if r.splice_result = -1 then
            ([action.send send_buffer send_buffer.utf8ByteSize, action.open_file file_path,
              action.splice file_path file_size],
              some (fault.runtime_error "failed to invoke 'splice'"))
          else
            ([action.send send_buffer send_buffer.utf8ByteSize, action.open_file file_path,
              action.splice file_path file_size], none)
  | .ok false =>
    let response : http_response :=
      { response0 with
        status := "404", status_text := "Not Found",
        header_list := response0.header_list ++ [("content-length", "0")] }
    let send_buffer := serialize response
    if r.send_result = -1 then
      ([action.send send_buffer send_buffer.utf8ByteSize],
        some (fault.runtime_error "failed to invoke 'send'"))
    else
      ([action.send send_buffer send_buffer.utf8ByteSize], none)

/-- The statement `if (const auto parse_result = http_parser.parse_packet(recv_buffer);
parse_result.has_value())` with its block: the actions performed after the
call of `parse_packet` and the exception thrown, if any. -/
def parse_and_respond (serialize : http_response → String) (fs : filesystem) (r : recv_round) :
    List action × Option fault :=
  match r.parse_result with
  | some http_request => respond serialize fs r http_request
  | none => ([], none)

/-- The body of the `while (true)` of `handle_client`, from the point where
the `recv` has resumed with the pair in `r`. The byte count reaches
`borrow_buffer` converted to `size_t`. -/
def loop_body (serialize : http_response → String) (fs : filesystem) (ring : buffer_ring)
    (r : recv_round) : iteration :=
  if r.recv_buffer_size = 0 then
    { trace := [], ring := ring, exit := loop_exit.break_loop }
  else
    let size := (r.recv_buffer_size % 18446744073709551616).toNat
    match borrow_buffer ring r.recv_buffer_id size with
    | .error e =>
      { trace := [action.borrow_buffer r.recv_buffer_id size], ring := ring,
        exit := loop_exit.stopped e }
    | .ok (ring1, recv_buffer) =>
      let head := [action.borrow_buffer r.recv_buffer_id size, action.parse_packet recv_buffer]
      let answered := parse_and_respond serialize fs r
      match answered.2 with
      | some e => { trace := head ++ answered.1, ring := ring1, exit := loop_exit.stopped e }
      | none =>
        match return_buffer ring1 r.recv_buffer_id with
        | .error e =>
          { trace := head ++ answered.1 ++ [action.return_buffer r.recv_buffer_id],
            ring := ring1, exit := loop_exit.stopped e }
        | .ok ring2 =>
          { trace := head ++ answered.1 ++ [action.return_buffer r.recv_buffer_id],
            ring := ring2, exit := loop_exit.next }

/-- The coroutine `thread_worker::handle_client` run against a script: round
`k` of the script answers the `k`-th `recv` and whatever that iteration
submits. Each trip round the loop first submits a `recv`. -/
def handle_client (serialize : http_response → String) (fs : filesystem) :
    buffer_ring → List recv_round → run
  | ring, [] => { trace := [action.recv BUFFER_SIZE], ring := ring,
                  status := run_status.awaiting_recv }
  | ring, r :: rest =>
    let it := loop_body serialize fs ring r
    match it.exit with
    | loop_exit.break_loop =>
      { trace := action.recv BUFFER_SIZE :: it.trace, ring := it.ring,
        status := run_status.returned }
    | loop_exit.stopped e =>
      { trace := action.recv BUFFER_SIZE :: it.trace, ring := it.ring,
        status := run_status.stopped e }
    | loop_exit.next =>
      let later := handle_client serialize fs it.ring rest
      { trace := action.recv BUFFER_SIZE :: it.trace ++ later.trace, ring := later.ring,
        status := later.status }

/-- Whether an action submits a `send` or a `splice`. -/
def action.is_send_or_splice : action → Bool
  | action.send _ _ => true
  | action.splice _ _ => true
  | _ => false

/-- The `send` and `splice` submissions of a trace, in program order. -/
def submissions (trace : List action) : List action :=
  trace.filter action.is_send_or_splice

/-- A buffer ring of one 8-byte buffer at address 4096, as it stands after
registration. -/
def sample_ring : buffer_ring :=
  { buffer_ring_ := { bufs := [{ addr := 4096, len := 8, bid := 0 }], tail := 1 },
    buffer_list_ := [{ data := 4096, bytes := List.replicate 8 0 }],
    borrowed_buffer_set_ := fun _ => false }

/-- A sample serializer: status line and headers, each line ended by CR LF. -/
def sample_serialize (response : http_response) : String :=
  response.version ++ " " ++ response.status ++ " " ++ response.status_text ++ "\r\n" ++
    String.join (response.header_list.map fun h => h.1 ++ ": " ++ h.2 ++ "\r\n") ++ "\r\n"

/-- A sample file system: `/hello.txt` is a regular file of 13 bytes that can
be opened; a path of more than 255 characters makes `exists` throw (name too
long); nothing else exists. -/
def sample_fs : filesystem :=
  { fs_exists := fun p =>
      if p.length > 255 then .error (fault.filesystem_error "File name too long")
      else .ok (p == "/hello.txt"),
    is_regular_file := fun p => .ok (p == "/hello.txt"),
    file_size := fun p =>
      if p == "/hello.txt" then .ok 13
      else .error (fault.filesystem_error "No such file or directory"),
    fs_open := fun p =>
      if p == "/hello.txt" then .ok 3
      else .error (fault.runtime_error "failed to invoke 'open'") }

/-- A path of 301 characters, longer than a file name may be. -/
def long_url : String :=
  String.mk (List.replicate 301 'a')

/-- A sample request for `url`. -/
def sample_request (url : String) : http_request :=
  { method := "GET", url := url, version := "HTTP/1.1", header_list := [("Host", "x")] }

/-! ## `sync_wait` and `sync_wait_all` -/

/-- A `task<T>` as `sync_wait` sees it: awaited in world `w` it either
completes with a return value and a new world, or never completes. -/
structure task (σ T : Type) where
  await : σ → Option (T × σ)

/-- The promise of a `sync_wait_task<T>`: the flag `wait()` blocks on and the
stored return value. -/
structure sync_wait_task_promise (T : Type) where
  atomic_flag_ : Bool
  return_value_ : Option T

/-- The coroutine `[&]() -> sync_wait_task<T> { co_return co_await task; }`:
it starts at once; when the task completes, `return_value` stores the value
and the final awaiter sets the flag. If the task never completes the promise
stays as constructed. -/
def sync_wait_task_run {σ T : Type} (t : task σ T) (w : σ) : sync_wait_task_promise T × σ :=
  match t.await w with
  | some (v, w1) => ({ atomic_flag_ := true, return_value_ := some v }, w1)
  | none => ({ atomic_flag_ := false, return_value_ := none }, w)

/-- The function `sync_wait(task)`: `wait()` returns only once the flag is set
(`none`: it blocks for ever); then `get_return_value()` reads the stored
value. -/
def sync_wait {σ T : Type} (t : task σ T) (w : σ) : Option (T × σ) :=
  let handle := sync_wait_task_run t w
  if handle.1.atomic_flag_ then
    match handle.1.return_value_ with
    | some v => some (v, handle.2)
    | none => none
  else none

/-- The `std::transform` of `sync_wait_all` over what is left of `task_list`,
appending each result to `return_value_list`. -/
def sync_wait_all_loop {σ T : Type} :
    List (task σ T) → List T → σ → Option (List T × σ)
  | [], return_value_list, w => some (return_value_list, w)
  | t :: rest, return_value_list, w =>
    match sync_wait t w with
    | none => none
    | some (v, w1) => sync_wait_all_loop rest (return_value_list ++ [v]) w1

/-- The function `sync_wait_all(task_list)` for a non-void `T`. -/
def sync_wait_all {σ T : Type} (task_list : List (task σ T)) (w : σ) : Option (List T × σ) :=
  sync_wait_all_loop task_list [] w

/-- Two sample tasks over a world that is a counter: the first returns the
counter plus one and adds 10 to it, the second returns twice the counter and
adds 100 to it. -/
def sample_tasks : List (task Nat Nat) :=
  [{ await := fun w => some (w + 1, w + 10) }, { await := fun w => some (w * 2, w + 100) }]

/-- A sample kernel answer to a ring registration: rings of at most 32768
entries are accepted, larger ones refused with `-EINVAL`. -/
def sample_register (entries : Nat) : Int :=
  if entries ≤ 32768 then 0 else -22

/-! ## The buffer ring: registration -/

/-- C1: a ring of two buffers, registered, then two receive cycles. The
kernel selects id 0, the handler borrows and returns it, and the ids on offer
are again 0 and 1. The kernel then selects id 1 while id 0 is on offer;
after `borrow_buffer 1` and `return_buffer 1` the ids on offer are 1 and 1:
id 0 is lost and id 1 is offered twice, because `add_buffer` wrote its entry
at `(tail + buffer_id) & mask`, over the entry of id 0, and published the
slot at `tail & mask`. -/
theorem return_buffer_overwrites_offered_entry :
    ∃ st0 st1 st2 st3 st4 s0 s1,
      register_buffer_ring sample_register (fun k => 4096 + 8 * k) (fun _ => ⟨0, 0, 0⟩) 0
        buffer_ring.fresh 2 8 = .ok st0 ∧
      offered_ids st0.buffer_ring_ 2 0 = [0, 1] ∧
      kernel_select st0.buffer_ring_ 2 0 = some (0, 1) ∧
      borrow_buffer st0 0 5 = .ok (st1, s0) ∧
      return_buffer st1 0 = .ok st2 ∧
      offered_ids st2.buffer_ring_ 2 1 = [1, 0] ∧
      kernel_select st2.buffer_ring_ 2 1 = some (1, 2) ∧
      offered_ids st2.buffer_ring_ 2 2 = [0] ∧
      borrow_buffer st2 1 5 = .ok (st3, s1) ∧
      return_buffer st3 1 = .ok st4 ∧
      offered_ids st4.buffer_ring_ 2 2 = [1, 1] ∧
      ¬ (offered_ids st4.buffer_ring_ 2 2).Perm (offered_ids st2.buffer_ring_ 2 1) := by
  refine ⟨_, _, _, _, _, _, _, rfl, ?_, ?_, rfl, rfl, ?_, ?_, ?_, rfl, rfl, ?_, ?_⟩ <;> decide

/-- C6, refuted as stated: there is a buffer ring state and an id whose
borrow bit is set on which `borrow_buffer` does not fail. -/
theorem borrow_buffer_borrowed_not_fatal :
    ¬ ∀ (st : buffer_ring) (id k : Nat), st.borrowed_buffer_set_ id = true →
        ∃ e, borrow_buffer st id k = .error e := by
  intro h
  obtain ⟨e, he⟩ := h
    { buffer_ring_ := { bufs := [⟨4096, 8, 0⟩], tail := 1 },
      buffer_list_ := [{ data := 4096, bytes := List.replicate 8 0 }],
      borrowed_buffer_set_ := fun i => i == 0 } 0 5 rfl
  simp [borrow_buffer] at he

/-- C6, amended: for a buffer id inside the buffer list whose borrow bit is
already set, `borrow_buffer id k` returns normally: it gives the span of `k`
bytes at that buffer, the bit stays set, and nothing else in the object
changes. -/
theorem borrow_buffer_borrowed_returns_span (st : buffer_ring) (id k : Nat) (b : char_vector)
    (hb : st.buffer_list_.get? id = some b) (hset : st.borrowed_buffer_set_ id = true) :
    ∃ st1, borrow_buffer st id k = .ok (st1, { data := b.data, size := k }) ∧
      st1.borrowed_buffer_set_ = st.borrowed_buffer_set_ ∧
      st1.borrowed_buffer_set_ id = true ∧
      st1.buffer_list_ = st.buffer_list_ ∧
      st1.buffer_ring_ = st.buffer_ring_ := by
  refine ⟨{ st with borrowed_buffer_set_ := Function.update st.borrowed_buffer_set_ id true },
    ?_, ?_, ?_, rfl, rfl⟩
  · simp only [borrow_buffer, hb]
  · show Function.update st.borrowed_buffer_set_ id true = st.borrowed_buffer_set_
    rw [← hset]
    exact Function.update_eq_self id st.borrowed_buffer_set_
  · show Function.update st.borrowed_buffer_set_ id true id = true
    simp

/-- C6 amended, at a one-buffer ring whose buffer is borrowed. -/
theorem borrow_buffer_borrowed_returns_span_witness :
    ∃ st1, borrow_buffer
        { buffer_ring_ := { bufs := [⟨4096, 8, 0⟩], tail := 1 },
          buffer_list_ := [{ data := 4096, bytes := List.replicate 8 0 }],
          borrowed_buffer_set_ := fun i => i == 0 } 0 5 = .ok (st1, { data := 4096, size := 5 }) ∧
      st1.borrowed_buffer_set_ = (fun i => i == 0) ∧
      st1.borrowed_buffer_set_ 0 = true ∧
      st1.buffer_list_ = [{ data := 4096, bytes := List.replicate 8 0 }] ∧
      st1.buffer_ring_ = { bufs := [⟨4096, 8, 0⟩], tail := 1 } :=
  borrow_buffer_borrowed_returns_span
    { buffer_ring_ := { bufs := [⟨4096, 8, 0⟩], tail := 1 },
      buffer_list_ := [{ data := 4096, bytes := List.replicate 8 0 }],
      borrowed_buffer_set_ := fun i => i == 0 } 0 5
    { data := 4096, bytes := List.replicate 8 0 } rfl rfl

/-! ## The completion iterator -/

theorem range_for_eq_foldl {σ : Type} (cq : io_uring_cq) (body : Nat → σ → σ) (t : Nat)
    (ht : t < 4294967296) :
    ∀ (d fuel h : Nat) (s : σ), h < 4294967296 → d = (t + 4294967296 - h) % 4294967296 →
      d ≤ fuel →
      range_for cq body fuel { head_ := h } { head_ := t } s =
        some (((List.range d).map fun k => ((h + k) % 4294967296) &&& cq.ring_mask).foldl
          (fun s cqe => body cqe s) s)
  | 0, fuel, h, s, hh, hd, _ => by
    have heq : h = t := by omega
    subst heq
    cases fuel <;> simp [range_for, cqe_iterator.ne]
  | d + 1, 0, h, s, _, _, hfuel => by omega
  | d + 1, fuel + 1, h, s, hh, hd, hfuel => by
    have hne : h ≠ t := by omega
    have hstep := range_for_eq_foldl cq body t ht d fuel ((h + 1) % 4294967296)
      (body (h &&& cq.ring_mask) s) (Nat.mod_lt _ (by decide)) (by omega) (by omega)
    simp only [range_for, cqe_iterator.ne, cqe_iterator.incr, cqe_iterator.deref, bne_iff_ne, ne_eq,
      cqe_iterator.mk.injEq, hne, not_false_eq_true, if_true]
    rw [hstep, List.range_succ_eq_map]
    simp only [List.map_cons, List.map_map, List.foldl_cons, Nat.add_zero, Nat.mod_eq_of_lt hh]
    congr 2
    apply List.map_congr_left
    intro k _
    simp only [Function.comp]
    congr 1
    omega

theorem foldl_collect (l : List Nat) :
    ∀ (pre : List Nat), l.foldl (fun yielded cqe => yielded ++ [cqe]) pre = pre ++ l := by
  induction l with
  | nil => intro pre; simp
  | cons a l ih => intro pre; simp [ih]

/-- C10: with 32-bit head `h` and tail `t` and `d = (t - h) mod 2^32`, the
iteration from `begin()` to `end()` terminates within any bound of at least
`d` steps and yields exactly `d` pointers, the `k`-th being the entry at
index `((h + k) mod 2^32) & ring_mask`; when `h = t` it yields nothing. -/
theorem cqe_iteration_yields_batch (cq : io_uring_cq) (fuel : Nat)
    (hh : cq.khead < 4294967296) (ht : cq.ktail < 4294967296)
    (hfuel : (cq.ktail + 4294967296 - cq.khead) % 4294967296 ≤ fuel) :
    iter_completions fuel cq =
        some ((List.range ((cq.ktail + 4294967296 - cq.khead) % 4294967296)).map fun k =>
          ((cq.khead + k) % 4294967296) &&& cq.ring_mask) ∧
      (∀ yielded, iter_completions fuel cq = some yielded →
        yielded.length = (cq.ktail + 4294967296 - cq.khead) % 4294967296) ∧
      (cq.khead = cq.ktail → iter_completions fuel cq = some []) := by
  have hrun : iter_completions fuel cq =
      some ((List.range ((cq.ktail + 4294967296 - cq.khead) % 4294967296)).map fun k =>
        ((cq.khead + k) % 4294967296) &&& cq.ring_mask) := by
    unfold iter_completions io_uring_begin io_uring_end
    rw [range_for_eq_foldl cq _ cq.ktail ht _ fuel cq.khead [] hh rfl hfuel, foldl_collect]
    simp
  refine ⟨hrun, ?_, ?_⟩
  · intro yielded hy
    rw [hrun] at hy
    cases hy
    simp
  · intro heq
    rw [hrun, heq]
    have : (cq.ktail + 4294967296 - cq.ktail) % 4294967296 = 0 := by omega
    rw [this]
    rfl

/-- C10 at a ring of four entries whose tail has wrapped: head `2^32 - 1`,
tail 1, two completions, at indices 3 and 0. -/
theorem cqe_iteration_yields_batch_witness :
    iter_completions 2
        { khead := 4294967295, ktail := 1, ring_mask := 3, cqes := fun k => ⟨k, 0, 0⟩ } =
        some ((List.range ((1 + 4294967296 - 4294967295) % 4294967296)).map fun k =>
          ((4294967295 + k) % 4294967296) &&& 3) ∧
      (∀ yielded, iter_completions 2
          { khead := 4294967295, ktail := 1, ring_mask := 3, cqes := fun k => ⟨k, 0, 0⟩ } =
          some yielded →
        yielded.length = (1 + 4294967296 - 4294967295) % 4294967296) ∧
      ((4294967295 : Nat) = 1 → iter_completions 2
          { khead := 4294967295, ktail := 1, ring_mask := 3, cqes := fun k => ⟨k, 0, 0⟩ } =
          some []) :=
  cqe_iteration_yields_batch
    { khead := 4294967295, ktail := 1, ring_mask := 3, cqes := fun k => ⟨k, 0, 0⟩ } 2
    (by decide) (by decide) (by decide)

/-! ## The event loop -/

theorem dispatched_succ (resume : Nat → (Nat → sqe_data) → (Nat → sqe_data)) (cq : io_uring_cq)
    (descriptors : Nat → sqe_data) (i : Nat) (hi : i < cq_ready cq) :
    dispatched resume cq descriptors (i + 1) =
      event_loop_body resume cq (cq_pointer cq i) (dispatched resume cq descriptors i) := by
  unfold dispatched
  have hlen : i < (cq_batch cq).length := by simp [cq_batch, hi]
  have hget : (cq_batch cq)[i]? = some (cq_pointer cq i) := by
    simp [cq_batch, hi]
  rw [List.take_succ, hget]
  simp [List.foldl_append]

theorem dispatched_khead (resume : Nat → (Nat → sqe_data) → (Nat → sqe_data)) (cq : io_uring_cq)
    (descriptors : Nat → sqe_data) (hh : cq.khead < 4294967296) :
    ∀ i, i ≤ cq_ready cq →
      (dispatched resume cq descriptors i).khead = (cq.khead + i) % 4294967296
  | 0, _ => by
    simp [dispatched, Nat.mod_eq_of_lt hh]
  | i + 1, hi => by
    rw [dispatched_succ resume cq descriptors i (by omega)]
    have ih := dispatched_khead resume cq descriptors hh i (by omega)
    unfold event_loop_body
    simp only []
    split <;> (simp only [ih]; omega)

/-- C3: one pass of `event_loop` over the batch `c_0 .. c_{d-1}` between
head and tail terminates and ends in the state reached by running the loop
body on the completions in queue order. Nothing is resumed before the first
completion. Handling `c_i` first stores the `res` and `flags` of `c_i` in
its descriptor and moves the queue head past `c_i` (marks it seen). When the
descriptor holds a null continuation, nothing is resumed and the descriptors
are left with just that update. Otherwise exactly one resumption is added
after all earlier ones: of that descriptor's continuation, made when the
descriptor's `cqe_res` and `cqe_flags` equal those of `c_i` and the head has
moved past `c_i`; and the descriptors afterwards are what that coroutine,
run on the updated descriptors, leaves. -/
theorem event_loop_resumes_in_queue_order
    (resume : Nat → (Nat → sqe_data) → (Nat → sqe_data)) (cq : io_uring_cq)
    (descriptors : Nat → sqe_data) (fuel : Nat)
    (hh : cq.khead < 4294967296) (ht : cq.ktail < 4294967296) (hfuel : cq_ready cq ≤ fuel) :
    event_loop_pass resume fuel cq descriptors =
        some (dispatched resume cq descriptors (cq_ready cq)) ∧
      (dispatched resume cq descriptors 0).resumed = [] ∧
      (dispatched resume cq descriptors 0).descriptors = descriptors ∧
      ∀ i, i < cq_ready cq →
        (dispatched resume cq descriptors (i + 1)).khead = (cq.khead + i + 1) % 4294967296 ∧
        (((dispatched resume cq descriptors i).descriptors
            (cq.cqes (cq_pointer cq i)).user_data).coroutine = 0 →
          (dispatched resume cq descriptors (i + 1)).resumed =
            (dispatched resume cq descriptors i).resumed ∧
          (dispatched resume cq descriptors (i + 1)).descriptors =
            Function.update (dispatched resume cq descriptors i).descriptors
              (cq.cqes (cq_pointer cq i)).user_data
              { cqe_res := (cq.cqes (cq_pointer cq i)).res,
                cqe_flags := (cq.cqes (cq_pointer cq i)).flags,
                coroutine := 0 }) ∧
        (((dispatched resume cq descriptors i).descriptors
            (cq.cqes (cq_pointer cq i)).user_data).coroutine ≠ 0 →
          (dispatched resume cq descriptors (i + 1)).resumed =
            (dispatched resume cq descriptors i).resumed ++
              [{ coroutine := ((dispatched resume cq descriptors i).descriptors
                    (cq.cqes (cq_pointer cq i)).user_data).coroutine,
                 cqe := cq_pointer cq i,
                 descriptor :=
                   { cqe_res := (cq.cqes (cq_pointer cq i)).res,
                     cqe_flags := (cq.cqes (cq_pointer cq i)).flags,
                     coroutine := ((dispatched resume cq descriptors i).descriptors
                       (cq.cqes (cq_pointer cq i)).user_data).coroutine },
                 khead := (cq.khead + i + 1) % 4294967296 }] ∧
          (dispatched resume cq descriptors (i + 1)).descriptors =
            resume
              ((dispatched resume cq descriptors i).descriptors
                (cq.cqes (cq_pointer cq i)).user_data).coroutine
              (Function.update (dispatched resume cq descriptors i).descriptors
                (cq.cqes (cq_pointer cq i)).user_data
                { cqe_res := (cq.cqes (cq_pointer cq i)).res,
                  cqe_flags := (cq.cqes (cq_pointer cq i)).flags,
                  coroutine := ((dispatched resume cq descriptors i).descriptors
                    (cq.cqes (cq_pointer cq i)).user_data).coroutine })) := by
  refine ⟨?_, rfl, rfl, ?_⟩
  · unfold event_loop_pass io_uring_begin io_uring_end
    rw [range_for_eq_foldl cq _ cq.ktail ht (cq_ready cq) fuel cq.khead _ hh rfl hfuel]
    have htake : (cq_batch cq).take (cq_ready cq) = cq_batch cq :=
      List.take_of_length_le (by simp [cq_batch])
    unfold dispatched
    rw [htake]
    rfl
  · intro i hi
    have hk := dispatched_khead resume cq descriptors hh i (by omega)
    have hk1 := dispatched_khead resume cq descriptors hh (i + 1) (by omega)
    rw [← Nat.add_assoc] at hk1
    refine ⟨hk1, ?_, ?_⟩
    · intro hnull
      rw [dispatched_succ resume cq descriptors i hi]
      simp [event_loop_body, hnull]
    · intro hnn
      rw [dispatched_succ resume cq descriptors i hi]
      constructor
      · simp only [event_loop_body, Function.update_same, Function.update_idem, ne_eq, hnn,
          not_false_eq_true, if_true, hk]
        congr 3
        omega
      · simp only [event_loop_body, Function.update_same, Function.update_idem, ne_eq, hnn,
          not_false_eq_true, if_true]

/-- C3 at the sample queue, where coroutine 77, once resumed for completion
0, installs continuation 78 in the descriptor of completion 1: the pass
resumes 77 for completion 0, 78 for completion 1 and 77 again for completion
2, and leaves the results of completions 2 and 1 in the two descriptors. -/
theorem event_loop_resumes_in_queue_order_witness :
    (event_loop_pass sample_resume 3 sample_cq sample_descriptors =
        some (dispatched sample_resume sample_cq sample_descriptors (cq_ready sample_cq)) ∧
      (dispatched sample_resume sample_cq sample_descriptors 0).resumed = [] ∧
      (dispatched sample_resume sample_cq sample_descriptors 0).descriptors =
        sample_descriptors ∧
      ∀ i, i < cq_ready sample_cq →
        (dispatched sample_resume sample_cq sample_descriptors (i + 1)).khead =
          (sample_cq.khead + i + 1) % 4294967296 ∧
        (((dispatched sample_resume sample_cq sample_descriptors i).descriptors
            (sample_cq.cqes (cq_pointer sample_cq i)).user_data).coroutine = 0 →
          (dispatched sample_resume sample_cq sample_descriptors (i + 1)).resumed =
            (dispatched sample_resume sample_cq sample_descriptors i).resumed ∧
          (dispatched sample_resume sample_cq sample_descriptors (i + 1)).descriptors =
            Function.update (dispatched sample_resume sample_cq sample_descriptors i).descriptors
              (sample_cq.cqes (cq_pointer sample_cq i)).user_data
              { cqe_res := (sample_cq.cqes (cq_pointer sample_cq i)).res,
                cqe_flags := (sample_cq.cqes (cq_pointer sample_cq i)).flags,
                coroutine := 0 }) ∧
        (((dispatched sample_resume sample_cq sample_descriptors i).descriptors
            (sample_cq.cqes (cq_pointer sample_cq i)).user_data).coroutine ≠ 0 →
          (dispatched sample_resume sample_cq sample_descriptors (i + 1)).resumed =
            (dispatched sample_resume sample_cq sample_descriptors i).resumed ++
              [{ coroutine :=
                   ((dispatched sample_resume sample_cq sample_descriptors i).descriptors
                     (sample_cq.cqes (cq_pointer sample_cq i)).user_data).coroutine,
                 cqe := cq_pointer sample_cq i,
                 descriptor :=
                   { cqe_res := (sample_cq.cqes (cq_pointer sample_cq i)).res,
                     cqe_flags := (sample_cq.cqes (cq_pointer sample_cq i)).flags,
                     coroutine :=
                       ((dispatched sample_resume sample_cq sample_descriptors i).descriptors
                         (sample_cq.cqes (cq_pointer sample_cq i)).user_data).coroutine },
                 khead := (sample_cq.khead + i + 1) % 4294967296 }] ∧
          (dispatched sample_resume sample_cq sample_descriptors (i + 1)).descriptors =
            sample_resume
              ((dispatched sample_resume sample_cq sample_descriptors i).descriptors
                (sample_cq.cqes (cq_pointer sample_cq i)).user_data).coroutine
              (Function.update (dispatched sample_resume sample_cq sample_descriptors i).descriptors
                (sample_cq.cqes (cq_pointer sample_cq i)).user_data
                { cqe_res := (sample_cq.cqes (cq_pointer sample_cq i)).res,
                  cqe_flags := (sample_cq.cqes (cq_pointer sample_cq i)).flags,
                  coroutine :=
                    ((dispatched sample_resume sample_cq sample_descriptors i).descriptors
                      (sample_cq.cqes (cq_pointer sample_cq i)).user_data).coroutine }))) ∧
      (dispatched sample_resume sample_cq sample_descriptors (cq_ready sample_cq)).resumed =
        [{ coroutine := 77, cqe := 0, descriptor := { cqe_res := 5, cqe_flags := 1, coroutine := 77 },
           khead := 1 },
         { coroutine := 78, cqe := 1, descriptor := { cqe_res := 6, cqe_flags := 0, coroutine := 78 },
           khead := 2 },
         { coroutine := 77, cqe := 2, descriptor := { cqe_res := 7, cqe_flags := 1, coroutine := 77 },
           khead := 3 }] ∧
      (dispatched sample_resume sample_cq sample_descriptors (cq_ready sample_cq)).descriptors 10 =
        { cqe_res := 7, cqe_flags := 1, coroutine := 77 } ∧
      (dispatched sample_resume sample_cq sample_descriptors (cq_ready sample_cq)).descriptors 11 =
        { cqe_res := 6, cqe_flags := 0, coroutine := 78 } ∧
      (dispatched sample_resume sample_cq sample_descriptors (cq_ready sample_cq)).khead = 3 :=
  ⟨event_loop_resumes_in_queue_order sample_resume sample_cq sample_descriptors 3
    (by decide) (by decide) (by decide), by decide, by decide, by decide, by decide⟩

/-! ## The connection handler -/

theorem handle_client_trace_head (serialize : http_response → String) (fs : filesystem)
    (ring : buffer_ring) (script : List recv_round) :
    (handle_client serialize fs ring script).trace =
      action.recv BUFFER_SIZE :: (handle_client serialize fs ring script).trace.tail := by
  cases script with
  | nil => rfl
  | cons r rest =>
    simp only [handle_client]
    split <;> rfl

theorem handle_client_append (serialize : http_response → String) (fs : filesystem) :
    ∀ (pre : List recv_round) (ring : buffer_ring) (later : List recv_round),
      (handle_client serialize fs ring pre).status = run_status.awaiting_recv →
      handle_client serialize fs ring (pre ++ later) =
        { trace := (handle_client serialize fs ring pre).trace ++
            (handle_client serialize fs (handle_client serialize fs ring pre).ring later).trace.tail,
          ring := (handle_client serialize fs (handle_client serialize fs ring pre).ring later).ring,
          status :=
            (handle_client serialize fs (handle_client serialize fs ring pre).ring later).status }
  | [], ring, later, _ => by
    simp only [List.nil_append, handle_client, List.singleton_append]
    rw [← handle_client_trace_head]
  | r :: rest, ring, later, h => by
    simp only [List.cons_append, handle_client] at h ⊢
    split
    · rename_i hexit
      simp only [hexit] at h
      cases h
    · rename_i e hexit
      simp only [hexit] at h
      cases h
    · rename_i hexit
      simp only [hexit] at h
      have ih := handle_client_append serialize fs rest (loop_body serialize fs ring r).ring later h
      rw [show rest.append later = rest ++ later from rfl, ih]
      simp only [hexit, List.cons_append, List.append_assoc]

/-- C4: in a run that reaches a `recv` which resumes with byte count 0, the
handler terminates there. Whatever answers the script still holds, the trace
of the whole run is the trace up to the submission of that `recv` (no
further recv, send or splice, no borrow_buffer, no return_buffer), the
coroutine has returned, and the buffer ring, its borrow set included, is as
it was before that `recv`. -/
theorem recv_zero_terminates_handler (serialize : http_response → String) (fs : filesystem)
    (ring : buffer_ring) (pre : List recv_round) (r : recv_round) (post : List recv_round)
    (hreach : (handle_client serialize fs ring pre).status = run_status.awaiting_recv)
    (hzero : r.recv_buffer_size = 0) :
    (handle_client serialize fs ring (pre ++ r :: post)).status = run_status.returned ∧
      (handle_client serialize fs ring (pre ++ r :: post)).trace =
        (handle_client serialize fs ring pre).trace ∧
      (handle_client serialize fs ring (pre ++ r :: post)).ring =
        (handle_client serialize fs ring pre).ring ∧
      (handle_client serialize fs ring (pre ++ r :: post)).ring.borrowed_buffer_set_ =
        (handle_client serialize fs ring pre).ring.borrowed_buffer_set_ := by
  rw [handle_client_append serialize fs pre ring (r :: post) hreach]
  simp [handle_client, loop_body, hzero]

/-- C4 on a run of one served request, then a zero-byte `recv`, with a
further round left in the script that is never used. -/
theorem recv_zero_terminates_handler_witness :
    (handle_client sample_serialize sample_fs sample_ring
        ([⟨0, 5, some (sample_request "/hello.txt"), 39, 13⟩] ++
          (⟨0, 0, none, 0, 0⟩ : recv_round) ::
            [⟨0, 5, some (sample_request "/hello.txt"), 39, 13⟩])).status =
        run_status.returned ∧
      (handle_client sample_serialize sample_fs sample_ring
        ([⟨0, 5, some (sample_request "/hello.txt"), 39, 13⟩] ++
          (⟨0, 0, none, 0, 0⟩ : recv_round) ::
            [⟨0, 5, some (sample_request "/hello.txt"), 39, 13⟩])).trace =
        (handle_client sample_serialize sample_fs sample_ring
          [⟨0, 5, some (sample_request "/hello.txt"), 39, 13⟩]).trace ∧
      (handle_client sample_serialize sample_fs sample_ring
        ([⟨0, 5, some (sample_request "/hello.txt"), 39, 13⟩] ++
          (⟨0, 0, none, 0, 0⟩ : recv_round) ::
            [⟨0, 5, some (sample_request "/hello.txt"), 39, 13⟩])).ring =
        (handle_client sample_serialize sample_fs sample_ring
          [⟨0, 5, some (sample_request "/hello.txt"), 39, 13⟩]).ring ∧
      (handle_client sample_serialize sample_fs sample_ring
        ([⟨0, 5, some (sample_request "/hello.txt"), 39, 13⟩] ++
          (⟨0, 0, none, 0, 0⟩ : recv_round) ::
            [⟨0, 5, some (sample_request "/hello.txt"), 39, 13⟩])).ring.borrowed_buffer_set_ =
        (handle_client sample_serialize sample_fs sample_ring
          [⟨0, 5, some (sample_request "/hello.txt"), 39, 13⟩]).ring.borrowed_buffer_set_ :=
  recv_zero_terminates_handler sample_serialize sample_fs sample_ring
    [⟨0, 5, some (sample_request "/hello.txt"), 39, 13⟩] ⟨0, 0, none, 0, 0⟩
    [⟨0, 5, some (sample_request "/hello.txt"), 39, 13⟩] (by decide) rfl

theorem loop_body_next (serialize : http_response → String) (fs : filesystem)
    (ring : buffer_ring) (r : recv_round) (b : char_vector)
    (hnz : r.recv_buffer_size ≠ 0) (hb : ring.buffer_list_.get? r.recv_buffer_id = some b)
    (hok : (parse_and_respond serialize fs r).2 = none) :
    (loop_body serialize fs ring r).exit = loop_exit.next ∧
      (loop_body serialize fs ring r).trace =
        [action.borrow_buffer r.recv_buffer_id (r.recv_buffer_size % 18446744073709551616).toNat,
          action.parse_packet
            { data := b.data, size := (r.recv_buffer_size % 18446744073709551616).toNat }] ++
          (parse_and_respond serialize fs r).1 ++ [action.return_buffer r.recv_buffer_id] := by
  rw [List.get?_eq_getElem?] at hb
  simp [loop_body, hnz, borrow_buffer, hb, hok, return_buffer]

theorem loop_body_thrown (serialize : http_response → String) (fs : filesystem)
    (ring : buffer_ring) (r : recv_round) (b : char_vector) (e : fault)
    (hnz : r.recv_buffer_size ≠ 0) (hb : ring.buffer_list_.get? r.recv_buffer_id = some b)
    (hthrow : (parse_and_respond serialize fs r).2 = some e) :
    (loop_body serialize fs ring r).exit = loop_exit.stopped e ∧
      (loop_body serialize fs ring r).trace =
        [action.borrow_buffer r.recv_buffer_id (r.recv_buffer_size % 18446744073709551616).toNat,
          action.parse_packet
            { data := b.data, size := (r.recv_buffer_size % 18446744073709551616).toNat }] ++
          (parse_and_respond serialize fs r).1 := by
  rw [List.get?_eq_getElem?] at hb
  simp [loop_body, hnz, borrow_buffer, hb, hthrow]

theorem submissions_loop_body (serialize : http_response → String) (fs : filesystem)
    (ring : buffer_ring) (r : recv_round) (b : char_vector)
    (hnz : r.recv_buffer_size ≠ 0) (hb : ring.buffer_list_.get? r.recv_buffer_id = some b) :
    submissions (loop_body serialize fs ring r).trace =
      submissions (parse_and_respond serialize fs r).1 := by
  cases hres : (parse_and_respond serialize fs r).2 with
  | none =>
    rw [(loop_body_next serialize fs ring r b hnz hb hres).2]
    simp [submissions, action.is_send_or_splice]
  | some e =>
    rw [(loop_body_thrown serialize fs ring r b e hnz hb hres).2]
    simp [submissions, action.is_send_or_splice]

/-- C5, refuted as stated: the parser yields a request for `/hello.txt`, an
existing regular file of 13 bytes, and the `send` of the 200 response
resumes with -1. The handler submits that one send and no splice. -/
theorem send_failure_skips_splice :
    submissions (handle_client sample_serialize sample_fs sample_ring
        [⟨0, 5, some (sample_request "/hello.txt"), -1, 13⟩]).trace =
      [action.send "HTTP/1.1 200 OK\r\ncontent-length: 13\r\n\r\n" 39] ∧
    (∀ n, action.splice "/hello.txt" n ∉
      (handle_client sample_serialize sample_fs sample_ring
        [⟨0, 5, some (sample_request "/hello.txt"), -1, 13⟩]).trace) ∧
    (handle_client sample_serialize sample_fs sample_ring
        [⟨0, 5, some (sample_request "/hello.txt"), -1, 13⟩]).status =
      run_status.stopped (fault.runtime_error "failed to invoke 'send'") := by
  refine ⟨by decide, ?_, by decide⟩
  intro n hmem
  have htrace : (handle_client sample_serialize sample_fs sample_ring
      [⟨0, 5, some (sample_request "/hello.txt"), -1, 13⟩]).trace =
      [action.recv 1024, action.borrow_buffer 0 5, action.parse_packet ⟨4096, 5⟩,
        action.send "HTTP/1.1 200 OK\r\ncontent-length: 13\r\n\r\n" 39] := by
    decide
  rw [htrace] at hmem
  simp at hmem

/-- C5, amended: for a received buffer (non-zero byte count, buffer id in the
list) the `send` and `splice` submissions of the iteration are, in order:
* when the parser yields a request with version `v` and url `u` and the
  file-system queries return that `u` is an existing regular file of size
  `n`: one send of the serialization of `{v, "200", "OK", [content-length: n]}`
  with its length, followed by one splice of length `n` from that file,
  unless the send resumed with -1 or `open` threw, in which case nothing
  follows;
* when the parser yields a request and the queries return that `u` is not an
  existing regular file: one send of the serialization of
  `{v, "404", "Not Found", [content-length: 0]}` and no splice;
* when the parser yields no request: none.
Nothing is stated for a buffer on which a file-system query throws. -/
theorem respond_submissions (serialize : http_response → String) (fs : filesystem)
    (ring : buffer_ring) (r : recv_round) (b : char_vector)
    (hnz : r.recv_buffer_size ≠ 0) (hb : ring.buffer_list_.get? r.recv_buffer_id = some b) :
    (∀ req n, r.parse_result = some req →
      is_existing_regular_file fs req.url = .ok true → fs.file_size req.url = .ok n →
      submissions (loop_body serialize fs ring r).trace =
        action.send
            (serialize { version := req.version, status := "200", status_text := "OK",
                         header_list := [("content-length", toString n)] })
            (serialize { version := req.version, status := "200", status_text := "OK",
                         header_list := [("content-length", toString n)] }).utf8ByteSize ::
          (if r.send_result = -1 then []
            else match fs.fs_open req.url with
              | .ok _ => [action.splice req.url n]
              | .error _ => [])) ∧
    (∀ req, r.parse_result = some req →
      is_existing_regular_file fs req.url = .ok false →
      submissions (loop_body serialize fs ring r).trace =
        [action.send
            (serialize { version := req.version, status := "404", status_text := "Not Found",
                         header_list := [("content-length", "0")] })
            (serialize { version := req.version, status := "404", status_text := "Not Found",
                         header_list := [("content-length", "0")] }).utf8ByteSize]) ∧
    (r.parse_result = none → submissions (loop_body serialize fs ring r).trace = []) := by
  rw [submissions_loop_body serialize fs ring r b hnz hb]
  refine ⟨?_, ?_, ?_⟩
  · intro req n hreq hfound hsize
    simp only [parse_and_respond, hreq, respond, hfound, hsize]
    by_cases hsend : r.send_result = -1
    · simp [hsend, submissions, action.is_send_or_splice]
    · cases hopen : fs.fs_open req.url with
      | error e => simp [hsend, submissions, action.is_send_or_splice]
      | ok fd =>
        by_cases hsplice : r.splice_result = -1
        · simp [hsend, hsplice, submissions, action.is_send_or_splice]
        · simp [hsend, hsplice, submissions, action.is_send_or_splice]
  · intro req hreq hmiss
    simp only [parse_and_respond, hreq, respond, hmiss]
    by_cases hsend : r.send_result = -1
    · simp [hsend, submissions, action.is_send_or_splice]
    · simp [hsend, submissions, action.is_send_or_splice]
  · intro hnone
    simp [parse_and_respond, hnone, submissions]

/-- C5 amended, at a received buffer with a request for `/hello.txt`, and its
outcome there and for a path that does not exist. -/
theorem respond_submissions_witness :
    ((∀ req n, (⟨0, 5, some (sample_request "/hello.txt"), 39, 13⟩ : recv_round).parse_result = some req →
      is_existing_regular_file sample_fs req.url = .ok true →
      sample_fs.file_size req.url = .ok n →
      submissions (loop_body sample_serialize sample_fs sample_ring (⟨0, 5, some (sample_request "/hello.txt"), 39, 13⟩ : recv_round)).trace =
        action.send
            (sample_serialize { version := req.version, status := "200", status_text := "OK",
                                header_list := [("content-length", toString n)] })
            (sample_serialize { version := req.version, status := "200", status_text := "OK",
                                header_list := [("content-length", toString n)] }
              ).utf8ByteSize ::
          (if (⟨0, 5, some (sample_request "/hello.txt"), 39, 13⟩ : recv_round).send_result = -1 then []
            else match sample_fs.fs_open req.url with
              | .ok _ => [action.splice req.url n]
              | .error _ => [])) ∧
    (∀ req, (⟨0, 5, some (sample_request "/hello.txt"), 39, 13⟩ : recv_round).parse_result = some req →
      is_existing_regular_file sample_fs req.url = .ok false →
      submissions (loop_body sample_serialize sample_fs sample_ring (⟨0, 5, some (sample_request "/hello.txt"), 39, 13⟩ : recv_round)).trace =
        [action.send
            (sample_serialize { version := req.version, status := "404",
                                status_text := "Not Found",
                                header_list := [("content-length", "0")] })
            (sample_serialize { version := req.version, status := "404",
                                status_text := "Not Found",
                                header_list := [("content-length", "0")] }).utf8ByteSize]) ∧
    ((⟨0, 5, some (sample_request "/hello.txt"), 39, 13⟩ : recv_round).parse_result = none →
      submissions (loop_body sample_serialize sample_fs sample_ring (⟨0, 5, some (sample_request "/hello.txt"), 39, 13⟩ : recv_round)).trace = [])) ∧
    is_existing_regular_file sample_fs "/hello.txt" = .ok true ∧
    sample_fs.file_size "/hello.txt" = .ok 13 ∧
    submissions (loop_body sample_serialize sample_fs sample_ring
        ⟨0, 5, some (sample_request "/hello.txt"), 39, 13⟩).trace =
      [action.send "HTTP/1.1 200 OK\r\ncontent-length: 13\r\n\r\n" 39,
        action.splice "/hello.txt" 13] ∧
    is_existing_regular_file sample_fs "/does-not-exist" = .ok false ∧
    submissions (loop_body sample_serialize sample_fs sample_ring
        ⟨0, 5, some (sample_request "/does-not-exist"), 45, 0⟩).trace =
      [action.send "HTTP/1.1 404 Not Found\r\ncontent-length: 0\r\n\r\n" 45] :=
  ⟨respond_submissions sample_serialize sample_fs sample_ring
      ⟨0, 5, some (sample_request "/hello.txt"), 39, 13⟩
      { data := 4096, bytes := List.replicate 8 0 } (by decide) rfl,
    rfl, rfl, by decide, rfl, by decide⟩

set_option maxRecDepth 8192 in
/-- When `std::filesystem::exists` throws on the url of a parsed request, the
exception leaves the handler at once: the buffer is borrowed and parsed,
nothing is sent, and `return_buffer` is not reached. -/
theorem filesystem_error_leaves_handler :
    (handle_client sample_serialize sample_fs sample_ring
        [⟨0, 5, some (sample_request long_url), 45, 0⟩]).trace =
      [action.recv 1024, action.borrow_buffer 0 5, action.parse_packet ⟨4096, 5⟩] ∧
    (handle_client sample_serialize sample_fs sample_ring
        [⟨0, 5, some (sample_request long_url), 45, 0⟩]).status =
      run_status.stopped (fault.filesystem_error "File name too long") := by
  decide

/-- C7: a `recv` that resumes with -104 (connection reset) in buffer 0. The
handler does not stop: it borrows buffer 0 with the count converted to
`size_t`, hands the span to the parser, returns the buffer and submits a
further `recv`; when the parser yields a request it also submits a send. -/
theorem recv_negative_is_not_closed :
    (handle_client sample_serialize sample_fs sample_ring [⟨0, -104, none, 0, 0⟩]).trace =
      [action.recv 1024, action.borrow_buffer 0 18446744073709551512,
        action.parse_packet ⟨4096, 18446744073709551512⟩, action.return_buffer 0,
        action.recv 1024] ∧
    (handle_client sample_serialize sample_fs sample_ring [⟨0, -104, none, 0, 0⟩]).status =
      run_status.awaiting_recv ∧
    (handle_client sample_serialize sample_fs sample_ring
        [⟨0, -104, some (sample_request "/does-not-exist"), 45, 0⟩]).trace =
      [action.recv 1024, action.borrow_buffer 0 18446744073709551512,
        action.parse_packet ⟨4096, 18446744073709551512⟩,
        action.send "HTTP/1.1 404 Not Found\r\ncontent-length: 0\r\n\r\n" 45,
        action.return_buffer 0, action.recv 1024] := by
  decide

/-! ## The blocking wait -/

theorem sync_wait_eq_await {σ T : Type} (t : task σ T) (w : σ) :
    sync_wait t w = t.await w := by
  unfold sync_wait sync_wait_task_run
  cases h : t.await w with
  | none => simp
  | some p => simp

theorem sync_wait_all_loop_spec {σ T : Type} :
    ∀ (task_list : List (task σ T)) (acc : List T) (w : σ),
      (∀ t ∈ task_list, ∀ w, (t.await w).isSome = true) →
      ∃ (vs : List T) (ws : List σ) (w1 : σ),
        sync_wait_all_loop task_list acc w = some (acc ++ vs, w1) ∧
        vs.length = task_list.length ∧
        ws.length = task_list.length + 1 ∧
        ws.head? = some w ∧ ws.getLast? = some w1 ∧
        ∀ i t, task_list.get? i = some t →
          ∃ v wi wj, vs.get? i = some v ∧ ws.get? i = some wi ∧ ws.get? (i + 1) = some wj ∧
            t.await wi = some (v, wj)
  | [], acc, w, _ => by
    refine ⟨[], [w], w, by simp [sync_wait_all_loop], rfl, rfl, rfl, rfl, ?_⟩
    intro i t h
    simp at h
  | t :: rest, acc, w, hdone => by
    obtain ⟨⟨v, w1⟩, hrun⟩ := Option.isSome_iff_exists.mp (hdone t (List.mem_cons_self _ _) w)
    obtain ⟨vs, ws, w2, hloop, hlen, hwlen, hhead, hlast, hchain⟩ :=
      sync_wait_all_loop_spec rest (acc ++ [v]) w1
        (fun t1 ht1 => hdone t1 (List.mem_cons_of_mem _ ht1))
    cases ws with
    | nil => simp at hwlen
    | cons w0 ws1 =>
      have hw0 : w0 = w1 := by simpa using hhead
      subst hw0
      refine ⟨v :: vs, w :: w0 :: ws1, w2, ?_, by simp [hlen], by simp at hwlen ⊢; omega, rfl, ?_, ?_⟩
      · simp only [sync_wait_all_loop, sync_wait_eq_await, hrun, hloop]
        simp
      · rw [List.getLast?_cons_cons]
        exact hlast
      · intro i t1 hi
        cases i with
        | zero =>
          simp at hi
          subst hi
          exact ⟨v, w, w0, by simp, by simp, by simp, hrun⟩
        | succ j =>
          have hj : rest.get? j = some t1 := by simpa using hi
          obtain ⟨v1, wi, wj, h1, h2, h3, h4⟩ := hchain j t1 hj
          refine ⟨v1, wi, wj, ?_, ?_, ?_, h4⟩
          · simpa using h1
          · simpa using h2
          · simpa using h3

/-- C9: for tasks that each complete when awaited, `sync_wait_all` returns a
list with one value per task, in list order: there is a chain of worlds
`ws_0 .. ws_n`, starting at the world of the call, in which `t_i` is awaited
in `ws_i` (the world in which the wait on `t_{i-1}` returned), returns the
`i`-th value, and leaves `ws_{i+1}`. For the empty list it returns the empty
list and leaves the world as it is. -/
theorem sync_wait_all_in_order {σ T : Type} (task_list : List (task σ T)) (w : σ)
    (hdone : ∀ t ∈ task_list, ∀ w, (t.await w).isSome = true) :
    (∃ (vs : List T) (ws : List σ) (w1 : σ),
        sync_wait_all task_list w = some (vs, w1) ∧
        vs.length = task_list.length ∧
        ws.length = task_list.length + 1 ∧
        ws.head? = some w ∧ ws.getLast? = some w1 ∧
        ∀ i t, task_list.get? i = some t →
          ∃ v wi wj, vs.get? i = some v ∧ ws.get? i = some wi ∧ ws.get? (i + 1) = some wj ∧
            t.await wi = some (v, wj)) ∧
      sync_wait_all ([] : List (task σ T)) w = some ([], w) := by
  refine ⟨?_, rfl⟩
  obtain ⟨vs, ws, w1, hloop, rest⟩ := sync_wait_all_loop_spec task_list [] w hdone
  exact ⟨vs, ws, w1, by simpa [sync_wait_all] using hloop, rest⟩

/-- C9 on the two sample tasks from world 0: the values are 1 and 20, in
that order, the second task having been awaited in the world the first one
left. -/
theorem sync_wait_all_in_order_witness :
    ((∃ (vs : List Nat) (ws : List Nat) (w1 : Nat),
        sync_wait_all sample_tasks 0 = some (vs, w1) ∧
        vs.length = sample_tasks.length ∧
        ws.length = sample_tasks.length + 1 ∧
        ws.head? = some 0 ∧ ws.getLast? = some w1 ∧
        ∀ i t, sample_tasks.get? i = some t →
          ∃ v wi wj, vs.get? i = some v ∧ ws.get? i = some wi ∧ ws.get? (i + 1) = some wj ∧
            t.await wi = some (v, wj)) ∧
      sync_wait_all ([] : List (task Nat Nat)) 0 = some ([], 0)) ∧
    sync_wait_all sample_tasks 0 = some ([1, 20], 110) :=
  ⟨sync_wait_all_in_order sample_tasks 0 (by
      intro t ht w
      simp only [sample_tasks, List.mem_cons, List.mem_singleton, List.not_mem_nil, or_false] at ht
      rcases ht with rfl | rfl <;> rfl),
    by decide⟩

end co_uring_http
